import Mathlib

/-!
Verification of the nexus-prover boundary contract.

The repository ships two C headers, `src/include/nexus_verifier.h` and
`src/pkg/prover/nexus_prover.h`, which declare the boundary surface:
`verify_proof_c`, `prove_anonymously_c`, `prove_authenticated_c`,
`free_verification_result`, `free_prover_result`, together with the
structures `VerificationInput`, `VerificationResult`, `TaskInput`,
`ProverResult`.  The function bodies are not part of the sources, so the
operational behaviour is modelled from the design document (spec.md,
sections 3, 4, 6, 7, 8): a shallow embedding in which C byte buffers are
`List Nat` of values `< 256`, C strings are byte lists, optional owned
pointers are `Option`, and heap accounting is an explicit allocation
count per envelope.
-/

namespace NexusProver

/-- A byte buffer crossing the C boundary: a list of byte values.
Genuine C buffers always satisfy `isBytes`. -/
abbrev Bytes := List Nat

/-- Every element of the list fits in one byte. -/
def isBytes (l : Bytes) : Prop := ∀ x ∈ l, x < 256

/-- Modelled from the spec: a registered program (spec.md §4.3, §6).  The
header files only carry `program_id` strings; the key-provisioning and
program-execution layer is out of the sources, so a program is modelled as
its input-shape predicate and its deterministic run function returning
`(exit_code, public_output, logs)` (spec.md §4.1 step 4, §4.3). -/
structure Program where
  validInput : Bytes → Bool
  run : Bytes → Nat × Bytes × List String

/-- The byte string "p1" (the program id of the concrete scenario, spec.md §8). -/
def strP1 : Bytes := [112, 49]

/-- The byte string "t1" (the task id of the concrete scenario, spec.md §8). -/
def strT1 : Bytes := [116, 49]

/-- Modelled from the spec: the build's default program id used by
anonymous proving (spec.md §4.2); the byte string "p0". -/
def defaultProgramId : Bytes := [112, 48]

/-- Modelled from the spec: the default task id used by anonymous proving,
which has no external task binding (spec.md §4.2); the empty string. -/
def anonTaskId : Bytes := []

/-- Modelled from the spec: the program registered as "p1".  The concrete
scenario (spec.md §8) fixes its behaviour on empty public inputs:
exit code 0, public output `[0x2a]`, and a non-empty log. -/
def prog1 : Program where
  validInput := fun _ => true
  run := fun _ => (0, [42], ["program executed"])

/-- Modelled from the spec: the build's default program for anonymous
proving (spec.md §4.2).  It accepts only the empty input and produces no
output bytes and no logs. -/
def defaultProg : Program where
  validInput := fun l => l = []
  run := fun _ => (0, [], [])

/-- Modelled from the spec: the program registry (key-provisioning
mechanism, spec.md §6).  Resolvable ids are "p1" and the default id;
everything else is unknown (spec.md §4.1, §4.3: `UnknownProgram`). -/
def programs (pid : Bytes) : Option Program :=
  if pid = strP1 then some prog1
  else if pid = defaultProgramId then some defaultProg
  else none

/-- Modelled from the spec: the structured content of a proof.  A proof
binds `(program_id, task_id, public_inputs)` as semantic content
(spec.md §4.3). -/
structure ProofStruct where
  program_id : Bytes
  task_id : Bytes
  public_inputs : Bytes
deriving DecidableEq

/-- Modelled from the spec: the authenticator byte closing a proof,
standing in for the cryptographic binding of the proof body. -/
def checksum (l : Bytes) : Nat := l.sum % 256

/-- Modelled from the spec: serialization of a proof into opaque bytes
(spec.md §3 `Proof`).  Layout: magic `[78, 80]`, one length byte plus the
program id, one length byte plus the task id, two length bytes plus the
public inputs, and a final authenticator byte covering the whole body. -/
def encodeProof (ps : ProofStruct) : Bytes :=
  let body : Bytes :=
    78 :: 80 :: ps.program_id.length ::
      (ps.program_id ++ ps.task_id.length ::
        (ps.task_id ++ ps.public_inputs.length / 256 ::
          ps.public_inputs.length % 256 :: ps.public_inputs))
  body ++ [checksum body]

/-- Read exactly `n` bytes from the front of a buffer. -/
def readN (n : Nat) (l : Bytes) : Option (Bytes × Bytes) :=
  if n ≤ l.length then some (l.take n, l.drop n) else none

/-- Parse a field introduced by a one-byte length. -/
def parseField1 (l : Bytes) : Option (Bytes × Bytes) :=
  match l with
  | n :: rest => readN n rest
  | [] => none

/-- Parse a field introduced by a two-byte big-endian length. -/
def parseField2 (l : Bytes) : Option (Bytes × Bytes) :=
  match l with
  | hi :: lo :: rest => readN (hi * 256 + lo) rest
  | _ => none

/-- Modelled from the spec: the structural decoder gating verification
(spec.md §4.1 step 1).  Malformed bytes fail here, before any
cryptographic work. -/
def decodeProof (b : Bytes) : Option ProofStruct :=
  match readN 2 b with
  | none => none
  | some (magic, r0) =>
    if magic = [78, 80] then
      match parseField1 r0 with
      | none => none
      | some (pid, r1) =>
        match parseField1 r1 with
        | none => none
        | some (tid, r2) =>
          match parseField2 r2 with
          | none => none
          | some (pi, r3) =>
            if r3.length = 1 then some ⟨pid, tid, pi⟩ else none
    else none

/-- Modelled from the spec: the cryptographic validity check of a proof
buffer — the final authenticator byte must match the body (spec.md §4.1
step 2). -/
def checksumOk (b : Bytes) : Bool :=
  match b.getLast? with
  | some c => decide (checksum b.dropLast = c)
  | none => false

/-- Mirror of `VerificationInput` (src/include/nexus_verifier.h lines
12-19); C pointer/length pairs become byte lists. -/
structure VerificationInput where
  program_id : Bytes
  task_id : Bytes
  public_inputs : Bytes
  proof_data : Bytes
deriving DecidableEq

/-- Mirror of `VerificationResult` (src/include/nexus_verifier.h lines
22-30).  Nullable owned pointers become `Option`; the C length fields are
kept as separate observables. -/
structure VerificationResult where
  success : Bool
  error_message : Option String
  exit_code : Nat
  public_output : Option Bytes
  public_output_len : Nat
  logs : Option (List String)
  logs_len : Nat
deriving DecidableEq

/-- A failing verification envelope: error message only, sentinel
exit code 0, no output, no logs (spec.md §7). -/
def vFail (msg : String) : VerificationResult :=
  { success := false, error_message := some msg, exit_code := 0,
    public_output := none, public_output_len := 0,
    logs := none, logs_len := 0 }

/-- A successful verification envelope carrying the reconstructed
exit code, output and logs (spec.md §4.1 step 4). -/
def vOk (ec : Nat) (out : Bytes) (lgs : List String) : VerificationResult :=
  { success := true, error_message := none, exit_code := ec,
    public_output := if out = [] then none else some out,
    public_output_len := out.length,
    logs := if lgs = [] then none else some lgs,
    logs_len := lgs.length }

/-- Modelled from the spec: `verify_proof_c`
(src/include/nexus_verifier.h line 33); body absent from the sources,
algorithm from spec.md §4.1: resolve the program (else `UnknownProgram`),
structurally decode the proof (else `MalformedProof`), check the
cryptographic binding of `(program_id, task_id, public_inputs)` (else
`VerificationFailed`), then deterministically reconstruct the output. -/
def verify_proof_c (inp : VerificationInput) : VerificationResult :=
  match programs inp.program_id with
  | none => vFail "UnknownProgram"
  | some prog =>
    match decodeProof inp.proof_data with
    | none => vFail "MalformedProof"
    | some ps =>
      if checksumOk inp.proof_data = true
          ∧ ps.program_id = inp.program_id
          ∧ ps.task_id = inp.task_id
          ∧ ps.public_inputs = inp.public_inputs then
        let t := prog.run inp.public_inputs
        vOk t.1 t.2.1 t.2.2
      else vFail "VerificationFailed"

/-- Mirror of `TaskInput` (src/pkg/prover/nexus_prover.h lines 11-16). -/
structure TaskInput where
  program_id : Bytes
  task_id : Bytes
  public_inputs : Bytes
deriving DecidableEq

/-- Mirror of `ProverResult` (src/pkg/prover/nexus_prover.h lines 4-9). -/
structure ProverResult where
  success : Bool
  error_message : Option String
  proof_data : Option Bytes
  proof_len : Nat
deriving DecidableEq

/-- A failing prover envelope (spec.md §4.2/§4.3 error paths). -/
def pFail (msg : String) : ProverResult :=
  { success := false, error_message := some msg,
    proof_data := none, proof_len := 0 }

/-- Modelled from the spec: `prove_authenticated_c`
(src/pkg/prover/nexus_prover.h line 20); body absent from the sources,
algorithm from spec.md §4.3: resolve the program (else `UnknownProgram`),
check the input shape (else `InvalidInput`), then produce a proof binding
`(program_id, task_id, public_inputs)`. -/
def prove_authenticated_c (task : TaskInput) : ProverResult :=
  match programs task.program_id with
  | none => pFail "UnknownProgram"
  | some prog =>
    if prog.validInput task.public_inputs then
      let pf := encodeProof ⟨task.program_id, task.task_id, task.public_inputs⟩
      { success := true, error_message := none,
        proof_data := some pf, proof_len := pf.length }
    else pFail "InvalidInput"

/-- Modelled from the spec: `prove_anonymously_c`
(src/pkg/prover/nexus_prover.h line 18); body absent from the sources,
behaviour from spec.md §4.2: prove the build's default computation
(default program id, default task id, empty public inputs). -/
def prove_anonymously_c : ProverResult :=
  let pf := encodeProof ⟨defaultProgramId, anonTaskId, []⟩
  { success := true, error_message := none,
    proof_data := some pf, proof_len := pf.length }

/-- Releasing an optional owned C string: one deallocation when present,
a no-op when absent. -/
def releaseOptStr : Option String → Nat
  | some _ => 1
  | none => 0

/-- Releasing an optional owned byte buffer: one deallocation when
present, a no-op when absent. -/
def releaseOptBytes : Option Bytes → Nat
  | some _ => 1
  | none => 0

/-- Releasing an optional owned log array: one deallocation per log
string plus one for the array itself, a no-op when absent. -/
def releaseLogs : Option (List String) → Nat
  | some ls => ls.length + 1
  | none => 0

/-- Modelled from the spec: `free_verification_result`
(src/include/nexus_verifier.h line 36); body absent from the sources,
contract from spec.md §4.4.  Heap effects are abstracted to the number of
deallocations performed while walking every owned field. -/
def free_verification_result (r : VerificationResult) : Nat :=
  releaseOptStr r.error_message + releaseOptBytes r.public_output
    + releaseLogs r.logs

/-- Modelled from the spec: `free_prover_result`
(src/pkg/prover/nexus_prover.h line 22); body absent from the sources,
contract from spec.md §4.4. -/
def free_prover_result (r : ProverResult) : Nat :=
  releaseOptStr r.error_message + releaseOptBytes r.proof_data

/-- Modelled from the spec: the number of owned allocations
`verify_proof_c` performs on each control path (spec.md §8 "instrumented
allocation counting"): one error string on every failure path; on success
one buffer for a non-empty output and one string per log line plus the
log array. -/
def verifyAllocCount (inp : VerificationInput) : Nat :=
  match programs inp.program_id with
  | none => 1
  | some prog =>
    match decodeProof inp.proof_data with
    | none => 1
    | some ps =>
      if checksumOk inp.proof_data = true
          ∧ ps.program_id = inp.program_id
          ∧ ps.task_id = inp.task_id
          ∧ ps.public_inputs = inp.public_inputs then
        let t := prog.run inp.public_inputs
        (if t.2.1 = [] then 0 else 1)
          + (if t.2.2 = [] then 0 else t.2.2.length + 1)
      else 1

/-- Modelled from the spec: the number of owned allocations
`prove_authenticated_c` performs on each control path: one proof buffer
on success, one error string on each failure path. -/
def proveAuthAllocCount (task : TaskInput) : Nat :=
  match programs task.program_id with
  | none => 1
  | some prog =>
    if prog.validInput task.public_inputs then 1
    else 1

/-! ## Properties of the proof serialization -/

theorem readN_append (l₁ l₂ : Bytes) : readN l₁.length (l₁ ++ l₂) = some (l₁, l₂) := by
  unfold readN
  rw [if_pos (by simp)]
  rw [List.take_left, List.drop_left]

theorem readN_length {n : Nat} {l x r : Bytes} (h : readN n l = some (x, r)) :
    x.length = n ∧ l.length = n + r.length := by
  unfold readN at h
  split at h
  case isTrue hc =>
    injection h with h2
    rw [Prod.ext_iff] at h2
    obtain ⟨hx, hr⟩ := h2
    simp only at hx hr
    subst hx; subst hr
    simp [List.length_take, List.length_drop]
    omega
  case isFalse hc => exact absurd h (by simp)

theorem parseField1_length {l x r : Bytes} (h : parseField1 l = some (x, r)) :
    l.length = 1 + x.length + r.length := by
  cases l with
  | nil => exact absurd h (by simp [parseField1])
  | cons n rest =>
    unfold parseField1 at h
    obtain ⟨hx, hlen⟩ := readN_length h
    simp [List.length_cons]
    omega

theorem parseField2_length {l x r : Bytes} (h : parseField2 l = some (x, r)) :
    l.length = 2 + x.length + r.length := by
  match l with
  | [] => exact absurd h (by simp [parseField2])
  | [hi] => exact absurd h (by simp [parseField2])
  | hi :: lo :: rest =>
    unfold parseField2 at h
    obtain ⟨hx, hlen⟩ := readN_length h
    simp [List.length_cons]
    omega

theorem encode_length (ps : ProofStruct) :
    (encodeProof ps).length
      = ps.program_id.length + ps.task_id.length + ps.public_inputs.length + 7 := by
  simp [encodeProof, List.length_append, List.length_cons]
  omega

theorem decode_length {b : Bytes} {ps : ProofStruct} (h : decodeProof b = some ps) :
    b.length
      = ps.program_id.length + ps.task_id.length + ps.public_inputs.length + 7 := by
  unfold decodeProof at h
  split at h
  case h_1 => exact absurd h (by simp)
  case h_2 magic r0 heq0 =>
    split at h
    case isFalse => exact absurd h (by simp)
    case isTrue hm =>
      split at h
      case h_1 => exact absurd h (by simp)
      case h_2 pid r1 heq1 =>
        split at h
        case h_1 => exact absurd h (by simp)
        case h_2 tid r2 heq2 =>
          split at h
          case h_1 => exact absurd h (by simp)
          case h_2 pi r3 heq3 =>
            split at h
            case isFalse => exact absurd h (by simp)
            case isTrue h3 =>
              injection h with h4
              subst h4
              obtain ⟨hm2, hb⟩ := readN_length heq0
              have h1 := parseField1_length heq1
              have h2 := parseField1_length heq2
              have hpf2 := parseField2_length heq3
              simp only
              omega

theorem readN_two (a b : Nat) (l : Bytes) : readN 2 (a :: b :: l) = some ([a, b], l) := by
  unfold readN
  rw [if_pos (by simp)]
  rfl

theorem decode_encode (ps : ProofStruct) : decodeProof (encodeProof ps) = some ps := by
  obtain ⟨pid, tid, pi⟩ := ps
  have hpi : pi.length / 256 * 256 + pi.length % 256 = pi.length := by omega
  have hE : encodeProof ⟨pid, tid, pi⟩
      = 78 :: 80 :: (pid.length :: (pid ++ tid.length ::
          (tid ++ pi.length / 256 :: pi.length % 256 ::
            (pi ++ [checksum (78 :: 80 :: pid.length ::
              (pid ++ tid.length :: (tid ++ pi.length / 256 ::
                pi.length % 256 :: pi)))])))) := by
    simp [encodeProof, List.cons_append, List.append_assoc]
  rw [hE]
  simp [decodeProof, readN_two, parseField1, parseField2, hpi, readN_append]

theorem checksum_encode (ps : ProofStruct) : checksumOk (encodeProof ps) = true := by
  unfold encodeProof checksumOk
  rw [List.getLast?_concat, List.dropLast_concat]
  simp

theorem checksum_flip {u w : Bytes} {old v : Nat}
    (hold : old < 256) (hv : v < 256) (hne : v ≠ old)
    (h : checksumOk (u ++ old :: w) = true) :
    checksumOk (u ++ v :: w) = false := by
  rcases List.eq_nil_or_concat w with rfl | ⟨w', c, rfl⟩
  · unfold checksumOk at h ⊢
    rw [show u ++ [old] = u ++ [old] from rfl, List.getLast?_concat,
      List.dropLast_concat] at h
    rw [show u ++ [v] = u ++ [v] from rfl, List.getLast?_concat,
      List.dropLast_concat]
    simp only [decide_eq_true_eq] at h
    simp only [decide_eq_false_iff_not]
    omega
  · rw [List.concat_eq_append] at *
    have e1 : u ++ old :: (w' ++ [c]) = (u ++ old :: w') ++ [c] := by simp
    have e2 : u ++ v :: (w' ++ [c]) = (u ++ v :: w') ++ [c] := by simp
    rw [e1] at h
    rw [e2]
    unfold checksumOk at h ⊢
    rw [List.getLast?_concat, List.dropLast_concat] at h
    rw [List.getLast?_concat, List.dropLast_concat]
    simp only [decide_eq_true_eq] at h
    simp only [decide_eq_false_iff_not]
    unfold checksum at h ⊢
    simp only [List.sum_append, List.sum_cons] at h ⊢
    omega

/-! ## Behaviour of the boundary operations -/

theorem verify_encode (pid tid pi : Bytes) (prog : Program)
    (hp : programs pid = some prog) :
    verify_proof_c ⟨pid, tid, pi, encodeProof ⟨pid, tid, pi⟩⟩
      = vOk (prog.run pi).1 (prog.run pi).2.1 (prog.run pi).2.2 := by
  have hd := decode_encode ⟨pid, tid, pi⟩
  have hcs := checksum_encode ⟨pid, tid, pi⟩
  simp [verify_proof_c, hp, hd, hcs]

theorem vOk_output_getD (ec : Nat) (out : Bytes) (lgs : List String) :
    (vOk ec out lgs).public_output.getD [] = out := by
  by_cases h : out = [] <;> simp [vOk, h]

/-! ## Claim theorems -/

/-- C9: for program "p1", task "t1" and empty public inputs,
`prove_authenticated_c` succeeds with proof bytes `P`, and
`verify_proof_c ("p1", "t1", [], P)` returns success with exit code 0 and
public output `[0x2a]`. -/
theorem c9_concrete_scenario :
    (prove_authenticated_c ⟨strP1, strT1, []⟩).success = true
    ∧ ∃ P : Bytes,
        (prove_authenticated_c ⟨strP1, strT1, []⟩).proof_data = some P
        ∧ (verify_proof_c ⟨strP1, strT1, [], P⟩).success = true
        ∧ (verify_proof_c ⟨strP1, strT1, [], P⟩).exit_code = 0
        ∧ (verify_proof_c ⟨strP1, strT1, [], P⟩).public_output = some [42] := by
  refine ⟨by decide, encodeProof ⟨strP1, strT1, []⟩, by decide, by decide,
    by decide, by decide⟩

/-- C8: the successful result of `prove_anonymously_c` carries proof bytes
that `verify_proof_c` accepts for the build's default program id and
default (empty) public inputs. -/
theorem c8_anonymous_roundtrip :
    prove_anonymously_c.success = true
    ∧ ∃ P : Bytes,
        prove_anonymously_c.proof_data = some P
        ∧ (verify_proof_c ⟨defaultProgramId, anonTaskId, [], P⟩).success = true := by
  refine ⟨by decide, encodeProof ⟨defaultProgramId, anonTaskId, []⟩,
    by decide, by decide⟩

/-- C4: every result of the three producing operations satisfies the
presence invariant — the error message is absent exactly when the call
succeeded (so a failing call always carries one, a successful call never
does). -/
theorem c4_presence_invariant :
    (∀ inp : VerificationInput,
        (verify_proof_c inp).error_message.isNone = (verify_proof_c inp).success)
    ∧ (∀ t : TaskInput,
        (prove_authenticated_c t).error_message.isNone
          = (prove_authenticated_c t).success)
    ∧ prove_anonymously_c.error_message.isNone = prove_anonymously_c.success := by
  refine ⟨fun inp => ?_, fun t => ?_, rfl⟩
  · unfold verify_proof_c
    split
    · rfl
    · split
      · rfl
      · split
        · rfl
        · rfl
  · unfold prove_authenticated_c
    split
    · rfl
    · split
      · rfl
      · rfl

theorem vOk_coherent (ec : Nat) (out : Bytes) (lgs : List String) :
    (vOk ec out lgs).public_output.isNone
        = decide ((vOk ec out lgs).public_output_len = 0)
    ∧ (vOk ec out lgs).logs.isNone = decide ((vOk ec out lgs).logs_len = 0) := by
  constructor
  · by_cases h : out = [] <;> simp [vOk, h, List.length_eq_zero]
  · by_cases h : lgs = [] <;> simp [vOk, h, List.length_eq_zero]

/-- C10: in every result of the three producing operations, each optional
buffer is absent exactly when its companion length field is zero
(`public_output`/`public_output_len`, `logs`/`logs_len`,
`proof_data`/`proof_len`). -/
theorem c10_pointer_length_coherence :
    (∀ inp : VerificationInput,
        (verify_proof_c inp).public_output.isNone
            = decide ((verify_proof_c inp).public_output_len = 0)
        ∧ (verify_proof_c inp).logs.isNone
            = decide ((verify_proof_c inp).logs_len = 0))
    ∧ (∀ t : TaskInput,
        (prove_authenticated_c t).proof_data.isNone
          = decide ((prove_authenticated_c t).proof_len = 0))
    ∧ prove_anonymously_c.proof_data.isNone
        = decide (prove_anonymously_c.proof_len = 0) := by
  refine ⟨fun inp => ?_, fun t => ?_, by decide⟩
  · unfold verify_proof_c
    split
    · exact ⟨by simp [vFail], by simp [vFail]⟩
    · split
      · exact ⟨by simp [vFail], by simp [vFail]⟩
      · split
        · exact vOk_coherent _ _ _
        · exact ⟨by simp [vFail], by simp [vFail]⟩
  · unfold prove_authenticated_c
    split
    · simp [pFail]
    · split
      · have h7 := encode_length ⟨t.program_id, t.task_id, t.public_inputs⟩
        dsimp only at h7 ⊢
        simp only [Option.isNone_some]
        symm
        rw [decide_eq_false_iff_not]
        omega
      · simp [pFail]

/-- C7: releasing a result deallocates exactly the owned allocations the
producing operation performed on that control path — verified against the
per-path allocation counts — and releasing an absent optional field is a
no-op that performs zero deallocations and cannot fault. -/
theorem c7_release_matches_allocation :
    (∀ inp : VerificationInput,
        free_verification_result (verify_proof_c inp) = verifyAllocCount inp)
    ∧ (∀ t : TaskInput,
        free_prover_result (prove_authenticated_c t) = proveAuthAllocCount t)
    ∧ free_prover_result prove_anonymously_c = 1
    ∧ releaseOptStr none = 0 ∧ releaseOptBytes none = 0 ∧ releaseLogs none = 0 := by
  refine ⟨fun inp => ?_, fun t => ?_, rfl, rfl, rfl, rfl⟩
  · rcases hp : programs inp.program_id with _ | prog
    · simp [verify_proof_c, verifyAllocCount, free_verification_result, hp,
        vFail, releaseOptStr, releaseOptBytes, releaseLogs]
    · rcases hd : decodeProof inp.proof_data with _ | ps
      · simp [verify_proof_c, verifyAllocCount, free_verification_result, hp, hd,
          vFail, releaseOptStr, releaseOptBytes, releaseLogs]
      · by_cases hc : checksumOk inp.proof_data = true
            ∧ ps.program_id = inp.program_id
            ∧ ps.task_id = inp.task_id
            ∧ ps.public_inputs = inp.public_inputs
        · by_cases hout : (prog.run inp.public_inputs).2.1 = []
            <;> by_cases hlgs : (prog.run inp.public_inputs).2.2 = []
            <;> simp [verify_proof_c, verifyAllocCount, free_verification_result,
              hp, hd, hc, hout, hlgs, vOk, releaseOptStr, releaseOptBytes,
              releaseLogs]
        · simp [verify_proof_c, verifyAllocCount, free_verification_result,
            hp, hd, hc, vFail, releaseOptStr, releaseOptBytes, releaseLogs]
  · rcases hp : programs t.program_id with _ | prog
    · simp [prove_authenticated_c, proveAuthAllocCount, free_prover_result, hp,
        pFail, releaseOptStr, releaseOptBytes]
    · by_cases hv : prog.validInput t.public_inputs
        <;> simp [prove_authenticated_c, proveAuthAllocCount, free_prover_result,
          hp, hv, pFail, releaseOptStr, releaseOptBytes]

/-- C2: two verification calls whose four input components are
byte-identical produce identical result contents: same success flag,
error message, exit code, public output bytes and logs. -/
theorem c2_determinism (a b : VerificationInput)
    (h1 : a.program_id = b.program_id) (h2 : a.task_id = b.task_id)
    (h3 : a.public_inputs = b.public_inputs) (h4 : a.proof_data = b.proof_data) :
    (verify_proof_c a).success = (verify_proof_c b).success
    ∧ (verify_proof_c a).error_message = (verify_proof_c b).error_message
    ∧ (verify_proof_c a).exit_code = (verify_proof_c b).exit_code
    ∧ (verify_proof_c a).public_output = (verify_proof_c b).public_output
    ∧ (verify_proof_c a).logs = (verify_proof_c b).logs := by
  obtain ⟨a1, a2, a3, a4⟩ := a
  obtain ⟨b1, b2, b3, b4⟩ := b
  dsimp only at h1 h2 h3 h4
  subst h1; subst h2; subst h3; subst h4
  exact ⟨rfl, rfl, rfl, rfl, rfl⟩

/-- C2 witness: the determinism theorem applied at a concrete pair of
byte-identical inputs. -/
theorem c2_determinism_witness :
    (verify_proof_c ⟨strP1, strT1, [], [1, 2]⟩).success
        = (verify_proof_c ⟨strP1, strT1, [], [1, 2]⟩).success
    ∧ (verify_proof_c ⟨strP1, strT1, [], [1, 2]⟩).error_message
        = (verify_proof_c ⟨strP1, strT1, [], [1, 2]⟩).error_message
    ∧ (verify_proof_c ⟨strP1, strT1, [], [1, 2]⟩).exit_code
        = (verify_proof_c ⟨strP1, strT1, [], [1, 2]⟩).exit_code
    ∧ (verify_proof_c ⟨strP1, strT1, [], [1, 2]⟩).public_output
        = (verify_proof_c ⟨strP1, strT1, [], [1, 2]⟩).public_output
    ∧ (verify_proof_c ⟨strP1, strT1, [], [1, 2]⟩).logs
        = (verify_proof_c ⟨strP1, strT1, [], [1, 2]⟩).logs :=
  c2_determinism ⟨strP1, strT1, [], [1, 2]⟩ ⟨strP1, strT1, [], [1, 2]⟩
    rfl rfl rfl rfl

/-- C6: an unregistered program id makes both `verify_proof_c` and
`prove_authenticated_c` fail with `UnknownProgram`, and releasing either
failing envelope deallocates exactly its one owned allocation (the error
string), so the failing call leaks nothing. -/
theorem c6_unknown_program (pid tid pi pf : Bytes)
    (h : programs pid = none) :
    verify_proof_c ⟨pid, tid, pi, pf⟩ = vFail "UnknownProgram"
    ∧ prove_authenticated_c ⟨pid, tid, pi⟩ = pFail "UnknownProgram"
    ∧ free_verification_result (verify_proof_c ⟨pid, tid, pi, pf⟩) = 1
    ∧ free_prover_result (prove_authenticated_c ⟨pid, tid, pi⟩) = 1 := by
  refine ⟨by simp [verify_proof_c, h], by simp [prove_authenticated_c, h], ?_, ?_⟩
  · simp [verify_proof_c, h, free_verification_result, vFail,
      releaseOptStr, releaseOptBytes, releaseLogs]
  · simp [prove_authenticated_c, h, free_prover_result, pFail,
      releaseOptStr, releaseOptBytes]

/-- C6 witness: the unknown-program theorem applied at the concrete
unregistered program id "zz". -/
theorem c6_unknown_program_witness :
    verify_proof_c ⟨[122, 122], strT1, [], []⟩ = vFail "UnknownProgram"
    ∧ prove_authenticated_c ⟨[122, 122], strT1, []⟩ = pFail "UnknownProgram"
    ∧ free_verification_result (verify_proof_c ⟨[122, 122], strT1, [], []⟩) = 1
    ∧ free_prover_result (prove_authenticated_c ⟨[122, 122], strT1, []⟩) = 1 :=
  c6_unknown_program [122, 122] strT1 [] [] rfl

/-- C1: for every valid `(program_id, task_id, public_inputs)` triple —
the program resolves and the inputs satisfy its shape predicate —
`prove_authenticated_c` succeeds, and feeding its proof bytes back to
`verify_proof_c` with the same triple succeeds with the program's
deterministic output and exit code. -/
theorem c1_roundtrip (pid tid pi : Bytes) (prog : Program)
    (hp : programs pid = some prog) (hv : prog.validInput pi = true) :
    (prove_authenticated_c ⟨pid, tid, pi⟩).success = true
    ∧ ∃ pf : Bytes,
        (prove_authenticated_c ⟨pid, tid, pi⟩).proof_data = some pf
        ∧ (verify_proof_c ⟨pid, tid, pi, pf⟩).success = true
        ∧ (verify_proof_c ⟨pid, tid, pi, pf⟩).public_output.getD []
            = (prog.run pi).2.1
        ∧ (verify_proof_c ⟨pid, tid, pi, pf⟩).exit_code = (prog.run pi).1 := by
  have hver := verify_encode pid tid pi prog hp
  refine ⟨?_, encodeProof ⟨pid, tid, pi⟩, ?_, ?_, ?_, ?_⟩
  · simp [prove_authenticated_c, hp, hv]
  · simp [prove_authenticated_c, hp, hv]
  · rw [hver]
    rfl
  · rw [hver, vOk_output_getD]
  · rw [hver]
    rfl

/-- C1 witness: the round-trip theorem applied at program "p1", task
"t1", public inputs `[7]`. -/
theorem c1_roundtrip_witness :
    (prove_authenticated_c ⟨strP1, strT1, [7]⟩).success = true
    ∧ ∃ pf : Bytes,
        (prove_authenticated_c ⟨strP1, strT1, [7]⟩).proof_data = some pf
        ∧ (verify_proof_c ⟨strP1, strT1, [7], pf⟩).success = true
        ∧ (verify_proof_c ⟨strP1, strT1, [7], pf⟩).public_output.getD []
            = (prog1.run [7]).2.1
        ∧ (verify_proof_c ⟨strP1, strT1, [7], pf⟩).exit_code = (prog1.run [7]).1 :=
  c1_roundtrip strP1 strT1 [7] prog1 rfl rfl

/-- C3: a proof produced by `prove_authenticated_c` for one task id is
rejected with `VerificationFailed` by `verify_proof_c` under any other
task id, with program id and public inputs unchanged. -/
theorem c3_task_binding (pid tidA tidB pi pf : Bytes) (prog : Program)
    (hp : programs pid = some prog)
    (hpf : (prove_authenticated_c ⟨pid, tidA, pi⟩).proof_data = some pf)
    (hne : tidB ≠ tidA) :
    verify_proof_c ⟨pid, tidB, pi, pf⟩ = vFail "VerificationFailed" := by
  have hpf2 : pf = encodeProof ⟨pid, tidA, pi⟩ := by
    unfold prove_authenticated_c at hpf
    dsimp only at hpf
    rw [hp] at hpf
    by_cases hv : prog.validInput pi
    · simp [hv] at hpf
      exact hpf.symm
    · simp [hv, pFail] at hpf
  subst hpf2
  have hd := decode_encode ⟨pid, tidA, pi⟩
  have hne2 : ¬(tidA = tidB) := fun h => hne h.symm
  simp [verify_proof_c, hp, hd, hne2]

/-- C3 witness: the task-binding theorem applied at program "p1", proof
issued for task "t1", checked against task "t2". -/
theorem c3_task_binding_witness :
    verify_proof_c ⟨strP1, [116, 50], [], encodeProof ⟨strP1, strT1, []⟩⟩
      = vFail "VerificationFailed" :=
  c3_task_binding strP1 strT1 [116, 50] [] (encodeProof ⟨strP1, strT1, []⟩)
    prog1 rfl rfl (by decide)

/-- C5: proof bytes that fail the structural decode are rejected with
`MalformedProof` before any cryptographic check; any strict truncation of
a valid proof and any single-byte flip of a valid proof are rejected with
`MalformedProof` or `VerificationFailed`; the verifier is a total
function, so no input crashes it. -/
theorem c5_malformed_rejection :
    (∀ inp : VerificationInput, ∀ prog : Program,
        programs inp.program_id = some prog →
        decodeProof inp.proof_data = none →
        verify_proof_c inp = vFail "MalformedProof")
    ∧ (∀ ps : ProofStruct, ∀ prog : Program, ∀ k : Nat,
        programs ps.program_id = some prog →
        k < (encodeProof ps).length →
        (verify_proof_c ⟨ps.program_id, ps.task_id, ps.public_inputs,
            (encodeProof ps).take k⟩).success = false
        ∧ ((verify_proof_c ⟨ps.program_id, ps.task_id, ps.public_inputs,
              (encodeProof ps).take k⟩).error_message = some "MalformedProof"
          ∨ (verify_proof_c ⟨ps.program_id, ps.task_id, ps.public_inputs,
              (encodeProof ps).take k⟩).error_message
                = some "VerificationFailed"))
    ∧ (∀ ps : ProofStruct, ∀ prog : Program, ∀ u w : Bytes, ∀ old v : Nat,
        programs ps.program_id = some prog →
        encodeProof ps = u ++ old :: w →
        old < 256 → v < 256 → v ≠ old →
        (verify_proof_c ⟨ps.program_id, ps.task_id, ps.public_inputs,
            u ++ v :: w⟩).success = false
        ∧ ((verify_proof_c ⟨ps.program_id, ps.task_id, ps.public_inputs,
              u ++ v :: w⟩).error_message = some "MalformedProof"
          ∨ (verify_proof_c ⟨ps.program_id, ps.task_id, ps.public_inputs,
              u ++ v :: w⟩).error_message = some "VerificationFailed")) := by
  refine ⟨fun inp prog hp hd => ?_, fun ps prog k hp hk => ?_,
    fun ps prog u w old v hp heq ho hv hne => ?_⟩
  · simp [verify_proof_c, hp, hd]
  · rcases hd : decodeProof ((encodeProof ps).take k) with _ | ps'
    · constructor
      · simp [verify_proof_c, hp, hd, vFail]
      · left
        simp [verify_proof_c, hp, hd, vFail]
    · have hcond : ¬(checksumOk ((encodeProof ps).take k) = true
          ∧ ps'.program_id = ps.program_id
          ∧ ps'.task_id = ps.task_id
          ∧ ps'.public_inputs = ps.public_inputs) := by
        rintro ⟨hcs, e1, e2, e3⟩
        have hl := decode_length hd
        have he := encode_length ps
        rw [List.length_take] at hl
        have l1 := congrArg List.length e1
        have l2 := congrArg List.length e2
        have l3 := congrArg List.length e3
        omega
      constructor
      · simp [verify_proof_c, hp, hd, hcond, vFail]
      · right
        simp [verify_proof_c, hp, hd, hcond, vFail]
  · have hcsE := checksum_encode ps
    rw [heq] at hcsE
    have hcs := checksum_flip ho hv hne hcsE
    rcases hd : decodeProof (u ++ v :: w) with _ | ps'
    · constructor
      · simp [verify_proof_c, hp, hd, vFail]
      · left
        simp [verify_proof_c, hp, hd, vFail]
    · constructor
      · simp [verify_proof_c, hp, hd, hcs, vFail]
      · right
        simp [verify_proof_c, hp, hd, hcs, vFail]

/-- C5 witness: the rejection theorem applied at three concrete corrupt
inputs — an empty proof buffer, the valid "p1"/"t1" proof truncated to
5 bytes, and the same proof with its first byte flipped from 78 to 79. -/
theorem c5_malformed_rejection_witness :
    verify_proof_c ⟨strP1, strT1, [], []⟩ = vFail "MalformedProof"
    ∧ ((verify_proof_c ⟨strP1, strT1, [],
          (encodeProof ⟨strP1, strT1, []⟩).take 5⟩).success = false
        ∧ ((verify_proof_c ⟨strP1, strT1, [],
              (encodeProof ⟨strP1, strT1, []⟩).take 5⟩).error_message
                = some "MalformedProof"
          ∨ (verify_proof_c ⟨strP1, strT1, [],
              (encodeProof ⟨strP1, strT1, []⟩).take 5⟩).error_message
                = some "VerificationFailed"))
    ∧ ((verify_proof_c ⟨strP1, strT1, [],
          [79, 80, 2, 112, 49, 2, 116, 49, 0, 0, 232]⟩).success = false
        ∧ ((verify_proof_c ⟨strP1, strT1, [],
              [79, 80, 2, 112, 49, 2, 116, 49, 0, 0, 232]⟩).error_message
                = some "MalformedProof"
          ∨ (verify_proof_c ⟨strP1, strT1, [],
              [79, 80, 2, 112, 49, 2, 116, 49, 0, 0, 232]⟩).error_message
                = some "VerificationFailed")) :=
  ⟨c5_malformed_rejection.1 ⟨strP1, strT1, [], []⟩ prog1 rfl rfl,
   c5_malformed_rejection.2.1 ⟨strP1, strT1, []⟩ prog1 5 rfl (by decide),
   c5_malformed_rejection.2.2 ⟨strP1, strT1, []⟩ prog1 []
     [80, 2, 112, 49, 2, 116, 49, 0, 0, 232] 78 79 rfl (by decide)
     (by decide) (by decide) (by decide)⟩

end NexusProver
